import Mathlib

/-!
Verification development for the 3DEP tiled DEM acquisition pipeline of the
inundation-mapping repository (`src/data/usgs/`).

The Python source is shallowly embedded: geometric quantities are modelled over
`ℚ` (the Python code computes with floats; all the facts proved here concern
exact arithmetic identities of the algorithms, not float rounding), region
geometries are modelled as axis-aligned rectangles (`Box`), fallible calls are
modelled by explicit outcome oracles, and the two retry loops are embedded as
fuel-indexed recursions / step functions on explicit state.
-/

namespace InundationMapping

/-! ## Tiling model

Embeds `tile_geometry` from `src/data/usgs/tile_wbds.py` (lines 57-123); the
same function is duplicated verbatim in
`src/data/usgs/acquire_and_preprocess_lidar_dems.py` (lines 119-185).
The region geometry is modelled as an axis-aligned box: `geometry.bounds` is
then the box itself and `shapely` intersection is box intersection.
-/

/-- An axis-aligned rectangle; models both the region geometry (restricted to
rectangles) and the tile boxes built by `shapely.geometry.box`. -/
structure Box where
  xmin : ℚ
  ymin : ℚ
  xmax : ℚ
  ymax : ℚ
deriving DecidableEq

/-- Python: `num_x_tiles = int(np.ceil((xmax - xmin) / max_tile_size))`.
For a nonpositive quotient the Python value would be nonpositive and
`np.linspace` indexing would fail; `toNat` clamps those degenerate inputs, and
every theorem below that needs a genuine grid assumes enough tiles exist. -/
def num_x_tiles (g : Box) (s : ℚ) : ℕ :=
  (⌈(g.xmax - g.xmin) / s⌉).toNat

/-- Python: `num_y_tiles = int(np.ceil((ymax - ymin) / max_tile_size))`. -/
def num_y_tiles (g : Box) (s : ℚ) : ℕ :=
  (⌈(g.ymax - g.ymin) / s⌉).toNat

/-- Python: `np.linspace(lo, hi, n + 1)`: the `n + 1` evenly spaced grid-line
coordinates from `lo` to `hi` (exact in `ℚ`). -/
def linspace (lo hi : ℚ) (n : ℕ) : List ℚ :=
  (List.range (n + 1)).map (fun (i : ℕ) => lo + (i : ℚ) * ((hi - lo) / (n : ℚ)))

/-- Python: `itertools.product(xs, ys)` — all pairs, x-major order. -/
def listProd (xs ys : List ℚ) : List (ℚ × ℚ) :=
  xs.flatMap (fun x => ys.map (fun y => (x, y)))

/-- Python: `tile_borders = list(product(tile_borders_x, tile_borders_y))`.
Note the product ranges over ALL `(nx+1)·(ny+1)` grid-line coordinates,
including the maximal border of each axis, so there is one candidate cell per
border point, not one per fishnet cell. -/
def tile_borders (g : Box) (s : ℚ) : List (ℚ × ℚ) :=
  listProd (linspace g.xmin g.xmax (num_x_tiles g s))
    (linspace g.ymin g.ymax (num_y_tiles g s))

/-- Python: `tile_size_x = tile_borders_x[1] - tile_borders_x[0]`, which for
the linspace above equals `(hi - lo) / n` exactly (the Python raises
`IndexError` when `n = 0`; the theorems below assume a nonempty grid). -/
def tile_size (lo hi : ℚ) (n : ℕ) : ℚ :=
  (hi - lo) / (n : ℚ)

/-- The per-axis edge-aware buffering of one candidate cell `[x0, x0 + tsize]`:

    if is_edge_max: tile_min -= buffer
    elif is_edge_min: tile_max += buffer
    else: both sides extended
-/
def buffer_side (lo hi tsize buf x0 : ℚ) : ℚ × ℚ :=
  let tmin := x0
  let tmax := x0 + tsize
  if tmax = hi then (tmin - buf, tmax)
  else if tmin = lo then (tmin, tmax + buf)
  else (tmin - buf, tmax + buf)

/-- Intersection of two boxes (`shapely` box-box intersection); an empty or
degenerate intersection shows up as inverted or collapsed bounds. -/
def Box.inter (a b : Box) : Box :=
  ⟨max a.xmin b.xmin, max a.ymin b.ymin, min a.xmax b.xmax, min a.ymax b.ymax⟩

/-- Python validity filter: `tile_not_empty & tile_is_valid & tile_is_area`.
For box-box intersections this holds exactly when both extents are positive
(zero width or height gives a line/point, inverted bounds give empty). -/
def Box.isArea (b : Box) : Bool :=
  decide (b.xmin < b.xmax) && decide (b.ymin < b.ymax)

/-- One loop body of `tile_geometry`: buffer the candidate cell based at `p`,
intersect with the region geometry, and keep the result only if it is a
non-empty valid area. -/
def make_tile (g : Box) (tsx tsy buf : ℚ) (p : ℚ × ℚ) : Option Box :=
  let xi := buffer_side g.xmin g.xmax tsx buf p.1
  let yi := buffer_side g.ymin g.ymax tsy buf p.2
  let t := Box.inter ⟨xi.1, yi.1, xi.2, yi.2⟩ g
  if t.isArea then some t else none

/-- `tile_geometry(geometry, max_tile_size, tile_buffer)`: the full generator,
yielding the retained tiles in loop order. -/
def tile_geometry (g : Box) (s buf : ℚ) : List Box :=
  (tile_borders g s).filterMap
    (make_tile g (tile_size g.xmin g.xmax (num_x_tiles g s))
      (tile_size g.ymin g.ymax (num_y_tiles g s)) buf)

/-- The `i`-th grid-line coordinate `lo + i * step` (the value of
`tile_borders_x[i]`). -/
def gridPt (lo step : ℚ) (i : ℕ) : ℚ :=
  lo + (i : ℚ) * step

/-- The tile generated from the candidate cell whose base corner is the
`(i, j)`-th grid point — the value `tile_geometry` yields for that candidate
when it passes the validity filter. -/
def cell_tile (g : Box) (s buf : ℚ) (i j : ℕ) : Box :=
  let tsx := tile_size g.xmin g.xmax (num_x_tiles g s)
  let tsy := tile_size g.ymin g.ymax (num_y_tiles g s)
  let xi := buffer_side g.xmin g.xmax tsx buf (gridPt g.xmin tsx i)
  let yi := buffer_side g.ymin g.ymax tsy buf (gridPt g.ymin tsy j)
  Box.inter ⟨xi.1, yi.1, xi.2, yi.2⟩ g

/-- Width of the overlap of two tiles along the x axis. -/
def overlap_x (a b : Box) : ℚ :=
  min a.xmax b.xmax - max a.xmin b.xmin

/-! ## Per-tile acquisition, variant of `lidar_dems_from_service.py`

`retrieve_process_write_single_3dep_dem_tile` (lines 103-131).  The loop:

    retries = 0
    while True:
        try: dem = py3dep.get_map(...)          # dynamic source
        except:
            retries += 1
            if retries > max_retries:
                try: dem = py3dep.static_3dep_dem(...)   # static fallback
                except: break                            # job fails
                else: break                              # static succeeded
            else: continue
        else: break                                      # dynamic succeeded

`get_3dep_static_tiles.py` (lines 274-302) contains the identical control flow
with the module constant `MAX_RETRIES = 10` in place of the parameter.
Success/failure of each remote call is supplied by oracles: `dyn k` is the
outcome of the `(k+1)`-th dynamic attempt, `stat` the outcome of the single
static attempt.  Only the acquisition control flow is modelled; reprojection
and the raster write are I/O that happens after the loop exits.  In the
failure case the Python code falls through to code that reads the unassigned
`dem` variable and the job dies with an exception — either way the job
terminates in failed status.
-/

/-- Terminal outcome of the acquisition loop, recording how many dynamic
attempts were made.  `failed n` means `n` dynamic attempts plus the single
static attempt all failed. -/
inductive AcqResult where
  | dynamic (dyn_attempts : ℕ)
  | static (dyn_attempts : ℕ)
  | failed (dyn_attempts : ℕ)
deriving DecidableEq

namespace LidarService

/-- The retry loop.  `retries` is the Python counter; `fuel` bounds the
recursion and is chosen at the entry point as `max_retries + 1`, which is
strictly more than the number of iterations the loop can make (each iteration
either exits or increments `retries`, and the loop always exits once
`retries > max_retries`), so the fuel-exhausted branch is unreachable from the
entry point. -/
def acquire_loop (dyn : ℕ → Bool) (stat : Bool) (max_retries : ℕ) :
    ℕ → ℕ → AcqResult
  | retries, 0 => .failed retries
  | retries, fuel + 1 =>
    if dyn retries then .dynamic (retries + 1)
    else if retries + 1 > max_retries then
      if stat then .static (retries + 1) else .failed (retries + 1)
    else acquire_loop dyn stat max_retries (retries + 1) fuel

/-- `retrieve_process_write_single_3dep_dem_tile`, acquisition phase:
run the loop from `retries = 0`. -/
def retrieve_process_write_single_3dep_dem_tile
    (dyn : ℕ → Bool) (stat : Bool) (max_retries : ℕ) : AcqResult :=
  acquire_loop dyn stat max_retries 0 (max_retries + 1)

/-- Result collection in `acquired_and_process_lidar_dems` (lines 295-299):

    for i, future in enumerate(as_completed(futures)):
        dem_tile_file_names[i] = future.result()

`future.result()` re-raises the worker's exception and there is no handler,
so the first failed future aborts the whole collection loop. -/
def collect_tile_results : List (Except String String) → Except String (List String)
  | [] => .ok []
  | f :: rest =>
    match f with
    | .ok name => (collect_tile_results rest).map (fun names => name :: names)
    | .error e => .error e

end LidarService

/-! ## Per-tile acquisition, variant of `acquire_and_preprocess_lidar_dems.py`

Inner `retrieve_process_write_single_3dep_dem_tile` (lines 337-361):

    retries = 1
    dem_source = "failed"
    while True:
        try:
            dem = py3dep.get_map(...)
            dem_source = "dynamic"; break
        except: retries += 1
        if retries > MAX_RETRIES:
            try:
                dem = py3dep.static_3dep_dem(...)
                dem_source = "static"; break
            except: pass   # NO break: the while loop runs again

Unlike the other two variants there is no `break` after a static failure, so
when both sources keep failing the loop never exits; it is embedded as a step
function on an explicit state so that non-termination is expressible. -/

namespace AcquirePreprocess

/-- Module constant `MAX_RETRIES = 5` of `acquire_and_preprocess_lidar_dems.py`. -/
def MAX_RETRIES : ℕ := 5

/-- Value of the `dem_source` string variable. -/
inductive Source where
  | failed
  | dynamic
  | static
deriving DecidableEq

/-- State carried across iterations of the `while True` loop, extended with
attempt counters and a `done` flag marking that `break` was executed. -/
structure TileLoopState where
  retries : ℕ
  dyn_attempts : ℕ
  static_attempts : ℕ
  dem_source : Source
  done : Bool
deriving DecidableEq

/-- State on entry to the loop: `retries = 1`, `dem_source = "failed"`. -/
def initState : TileLoopState :=
  ⟨1, 0, 0, .failed, false⟩

/-- One iteration of the `while True` loop.  `dyn k` / `stat k` are the
outcomes of the `(k+1)`-th dynamic / static remote call. -/
def step (dyn stat : ℕ → Bool) (max_retries : ℕ) (s : TileLoopState) :
    TileLoopState :=
  if s.done then s
  else if dyn s.dyn_attempts then
    { s with dyn_attempts := s.dyn_attempts + 1, dem_source := .dynamic, done := true }
  else
    let s1 := { s with dyn_attempts := s.dyn_attempts + 1, retries := s.retries + 1 }
    if s1.retries > max_retries then
      if stat s1.static_attempts then
        { s1 with static_attempts := s1.static_attempts + 1, dem_source := .static,
                  done := true }
      else
        { s1 with static_attempts := s1.static_attempts + 1 }
    else s1

/-- The state after `n` iterations of the loop. -/
def run (dyn stat : ℕ → Bool) (max_retries : ℕ) : ℕ → TileLoopState
  | 0 => initState
  | n + 1 => step dyn stat max_retries (run dyn stat max_retries n)

/-- Result collection in `Acquired_and_process_lidar_dems` (lines 426-432):

    for pf in as_completed(processing_futures):
        try: dem_tile_file_names.append(pf.result())
        except:
            print(f-string containing pf.result())
            pass

The `except` arm calls `pf.result()` again inside the `print` argument, which
re-raises the very exception being handled, so the loop still aborts at the
first failed future — same observable behaviour as the unguarded variant. -/
def collect_tile_results : List (Except String String) → Except String (List String)
  | [] => .ok []
  | f :: rest =>
    match f with
    | .ok name => (collect_tile_results rest).map (fun names => name :: names)
    | .error e => .error e

end AcquirePreprocess

/-! ## Job submission (ledger / idempotence model)

`acquired_and_process_lidar_dems` in `lidar_dems_from_service.py`
(lines 273-299) submits the acquisition jobs:

    tile_inputs_list = tile_inputs.itertuples(index=False, name=None)
    futures = [client.submit(partial_fn, *row) for row in tile_inputs_list]

One dask future per row of the tile-inputs table, unconditionally; nothing is
read from the output directory or from any completion record before
submitting (the run in fact begins by `shutil.rmtree`-ing the output
directory).  The same unconditional per-tile submission appears in
`acquire_and_preprocess_lidar_dems.py` (lines 411-432). -/

/-- A row of the tile-inputs table: `(idx, huc, geometry)`. -/
structure TileRow where
  idx : String
  huc : String
  geometry : Box
deriving DecidableEq

/-- Jobs submitted by the pipeline.  The `prior_completed` argument stands for
any record of tiles a previous run already completed; the source performs no
such lookup, so the submitted list is one job per input row regardless of it. -/
def submitted_tile_jobs (_prior_completed : List String) (tile_inputs : List TileRow) :
    List TileRow :=
  tile_inputs.map (fun row => row)

/-- Modelled from the spec: the repository has no JobLedger implementation
(`§4.3`: `has_completed(tile_id)`, "Before submission, any Tile whose
id/output is already present in the JobLedger is skipped").  This is the
submission rule the spec describes, for comparison with
`submitted_tile_jobs`. -/
def ledger_submitted_tile_jobs (ledger : List String) (tile_inputs : List TileRow) :
    List TileRow :=
  tile_inputs.filter (fun row => decide (row.idx ∉ ledger))

/-! ## VRT (mosaic) build

`build_3dep_vrt` in `generate_3dep_1m_vrt.py` (lines 158-184) and the inline
copy at the end of `acquired_and_process_lidar_dems`
(`lidar_dems_from_service.py` lines 301-318):

    if os.path.exists(destVRT): os.remove(destVRT)
    vrt = gdal.BuildVRT(destName=destVRT, srcDSOrSrcDSTab=tile_urls, options=opts)

The filesystem is modelled as a partial map from paths to file contents and
`gdal.BuildVRT` as a pure function of the source list. -/

/-- A filesystem: path to optional file contents. -/
def FileSystem : Type :=
  String → Option String

/-- The artifact `gdal.BuildVRT` produces: a catalog determined by the source
raster list. -/
def vrt_content (tile_files : List String) : String :=
  String.intercalate "\n" tile_files

/-- `build_3dep_vrt`: remove any pre-existing file at `destVRT`, then write the
freshly built VRT there. -/
def build_3dep_vrt (fs : FileSystem) (destVRT : String) (tile_files : List String) :
    FileSystem :=
  let fs1 : FileSystem :=
    if (fs destVRT).isSome then fun p => if p = destVRT then none else fs p
    else fs
  fun p => if p = destVRT then some (vrt_content tile_files) else fs1 p

/-! ## CRS comparison check

`Acquired_and_process_lidar_dems` (`acquire_and_preprocess_lidar_dems.py`
lines 262-271):

    if wbd_crs.is_exact_same(dem_vrt_crs):
        raise ValueError('WBD and 3DEP DEM VRT must have the same CRS')

The raise fires when the CRSs match; execution proceeds when they differ. -/

/-- The CRS comparison step; CRSs are opaque values compared for exact
equality. -/
def crs_match_check (wbd_crs dem_vrt_crs : String) : Except String Unit :=
  if wbd_crs = dem_vrt_crs then
    Except.error "WBD and 3DEP DEM VRT must have the same CRS"
  else Except.ok ()

/-! ## `retry_request`

Identical in `create_3dep_1m_tile_index.py` (lines 37-60),
`create_3dep_tile_index.py` (lines 38-65), `get_3dep_static_tiles.py`
(lines 90-113) and `generate_3dep_1m_vrt.py` (lines 58-81):

    for i in range(max_retries):
        try:
            response = requests.get(url)
            if response.status_code != 200: sleep; continue
            return response
        except requests.exceptions.ConnectionError: sleep; continue
    if i == (max_retries - 1):
        raise ConnectionError(... after {max_retries} retries ...)
    elif response.status_code != 200:
        raise ConnectionError(... with status code ... )

Each attempt's outcome is an oracle value; the Python local variables `i` and
`response` survive the loop and are modelled as `Option`s (`none` = unbound,
reading an unbound local raises `NameError`). -/

/-- Outcome of one `requests.get` call. -/
inductive FetchResult where
  | resp (status_code : ℕ)
  | connError
deriving DecidableEq

/-- The exceptions `retry_request` can raise. -/
inductive ReqError where
  | retriesExhausted
  | badStatus (status_code : ℕ)
  | nameError
deriving DecidableEq

/-- How the `for` loop ends: an early `return`, or falling off the end with
the last values of the locals `i` and `response`. -/
inductive LoopExit where
  | returned (status_code : ℕ)
  | fellThrough (last_i : Option ℕ) (last_resp : Option ℕ)
deriving DecidableEq

/-- The `for i in range(max_retries)` loop over the remaining index list. -/
def retry_loop (fetch : ℕ → FetchResult) :
    List ℕ → Option ℕ → Option ℕ → LoopExit
  | [], last_i, last_resp => .fellThrough last_i last_resp
  | i :: rest, _, last_resp =>
    match fetch i with
    | .resp c =>
      if c ≠ 200 then retry_loop fetch rest (some i) (some c)
      else .returned c
    | .connError => retry_loop fetch rest (some i) last_resp

/-- `retry_request(url, max_retries, sleep_time)`: `fetch k` is the outcome of
the `(k+1)`-th `requests.get(url)`.  Returns `.ok (some code)` for an explicit
`return response`, `.ok none` for Python's implicit `return None` at the end
of the function body, and `.error` for a raised exception. -/
def retry_request (fetch : ℕ → FetchResult) (max_retries : ℕ) :
    Except ReqError (Option ℕ) :=
  match retry_loop fetch (List.range max_retries) none none with
  | .returned c => .ok (some c)
  | .fellThrough none _ => .error .nameError
  | .fellThrough (some i) last_resp =>
    if i = max_retries - 1 then .error .retriesExhausted
    else
      match last_resp with
      | some c => if c ≠ 200 then .error (.badStatus c) else .ok none
      | none => .error .nameError

/-! ## Lemmas about the `lidar_dems_from_service.py` acquisition loop -/

/-- When every dynamic attempt fails, the loop runs `retries` from `r` up to
`max_retries` and then takes the static fallback branch, having made
`max_retries + 1` dynamic attempts in total. -/
theorem LidarService.acquire_loop_allfail (stat : Bool) (m : ℕ) :
    ∀ f r, r + f = m →
      LidarService.acquire_loop (fun _ => false) stat m r (f + 1) =
        if stat then AcqResult.static (m + 1) else AcqResult.failed (m + 1) := by
  intro f
  induction f with
  | zero =>
    intro r hr
    simp only [Nat.add_zero] at hr
    subst hr
    simp [LidarService.acquire_loop]
  | succ f ih =>
    intro r hr
    have h1 : ¬ (r + 1 > m) := by omega
    simp only [LidarService.acquire_loop, h1, if_false, ite_false]
    exact ih (r + 1) (by omega)

/-! ## Lemmas about the `acquire_and_preprocess_lidar_dems.py` loop -/

/-- While the dynamic counter has not yet exceeded `max_retries`, each
all-failing iteration just increments `retries` and the dynamic attempt
count; no static attempt happens and the loop is not done. -/
theorem AcquirePreprocess.run_allfail_inv (stat : ℕ → Bool) (M : ℕ) :
    ∀ k, k < M →
      AcquirePreprocess.run (fun _ => false) stat M k =
        ⟨k + 1, k, 0, .failed, false⟩ := by
  intro k
  induction k with
  | zero => intro _; rfl
  | succ k ih =>
    intro hk
    have hk' : k < M := by omega
    show AcquirePreprocess.step _ _ _ (AcquirePreprocess.run _ _ _ k) = _
    rw [ih hk']
    have h2 : ¬ (k + 1 + 1 > M) := by omega
    simp [AcquirePreprocess.step, h2]

/-- A single loop iteration cannot set `done` when both sources fail. -/
theorem AcquirePreprocess.step_allfail_done (M : ℕ) (s : AcquirePreprocess.TileLoopState)
    (h : s.done = false) :
    (AcquirePreprocess.step (fun _ => false) (fun _ => false) M s).done = false := by
  simp only [AcquirePreprocess.step, h, Bool.false_eq_true, if_false]
  split <;> rfl

/-- With both sources always failing, the loop never exits. -/
theorem AcquirePreprocess.run_allfail_never_done (M : ℕ) :
    ∀ n, (AcquirePreprocess.run (fun _ => false) (fun _ => false) M n).done = false := by
  intro n
  induction n with
  | zero => rfl
  | succ n ih => exact AcquirePreprocess.step_allfail_done M _ ih

/-! ## Claim C1 -/

/-- C1, counterexample: in `retrieve_process_write_single_3dep_dem_tile` of
`lidar_dems_from_service.py` with `max_retries = 5` and the dynamic source
always raising, the static fallback is reached only after 6 dynamic attempts,
not after the claimed `max_retries = 5`. -/
theorem C1_counterexample :
    LidarService.retrieve_process_write_single_3dep_dem_tile (fun _ => false) true 5 =
      AcqResult.static 6 ∧ (6 : ℕ) ≠ 5 := by
  constructor
  · decide
  · decide

/-- C1, amended: with the dynamic source always raising, the
`lidar_dems_from_service.py` strategy makes exactly `max_retries + 1` dynamic
attempts and then switches to the static fallback; if the static fetch also
fails the job terminates in failed status after exactly `max_retries + 1`
dynamic attempts plus the single static attempt.  In the
`acquire_and_preprocess_lidar_dems.py` variant (the one that tracks
`dem_source`), the first static attempt instead comes after exactly
`max_retries` dynamic attempts (for any `max_retries = m + 1 ≥ 1`) and a
successful static fetch ends the job with `dem_source = "static"`. -/
theorem C1_retry_counts : ∀ m : ℕ,
    LidarService.retrieve_process_write_single_3dep_dem_tile (fun _ => false) true m =
      AcqResult.static (m + 1)
    ∧ LidarService.retrieve_process_write_single_3dep_dem_tile (fun _ => false) false m =
      AcqResult.failed (m + 1)
    ∧ AcquirePreprocess.run (fun _ => false) (fun _ => true) (m + 1) (m + 1) =
      ⟨m + 2, m + 1, 1, .static, true⟩ := by
  intro m
  refine ⟨?_, ?_, ?_⟩
  · have h := LidarService.acquire_loop_allfail true m m 0 (by omega)
    simpa [LidarService.retrieve_process_write_single_3dep_dem_tile] using h
  · have h := LidarService.acquire_loop_allfail false m m 0 (by omega)
    simpa [LidarService.retrieve_process_write_single_3dep_dem_tile] using h
  · show AcquirePreprocess.step _ _ _ (AcquirePreprocess.run _ _ _ m) = _
    rw [AcquirePreprocess.run_allfail_inv (fun _ => true) (m + 1) m (by omega)]
    have h2 : m + 1 + 1 > m + 1 := by omega
    simp [AcquirePreprocess.step, h2]

/-! ## Claim C2 -/

/-- C2: in the `acquire_and_preprocess_lidar_dems.py` variant, when both
sources always raise, the loop never terminates — the static fallback is
re-attempted on every iteration past the threshold instead of exactly once
(after 6 iterations with `MAX_RETRIES = 5` the static source has already been
attempted twice), contradicting the documented one-static-attempt-then-fail
behaviour that the sibling variants implement with a `break`. -/
theorem C2_static_retried_forever :
    (∀ n, (AcquirePreprocess.run (fun _ => false) (fun _ => false)
        AcquirePreprocess.MAX_RETRIES n).done = false)
    ∧ (AcquirePreprocess.run (fun _ => false) (fun _ => false)
        AcquirePreprocess.MAX_RETRIES 6).static_attempts = 2 := by
  constructor
  · exact AcquirePreprocess.run_allfail_never_done AcquirePreprocess.MAX_RETRIES
  · decide

/-! ## Claim C7 -/

/-- C7: both result-collection loops abort at the first failed tile future
instead of recording the failure and continuing — `lidar_dems_from_service.py`
has no handler around `future.result()`, and the `except` arm of
`acquire_and_preprocess_lidar_dems.py` calls `pf.result()` again inside its
`print`, re-raising the exception it had just caught; the later successful
tile is lost in both variants. -/
theorem C7_collection_aborts :
    LidarService.collect_tile_results
        [.ok "tile1.tif", .error "ServiceError", .ok "tile3.tif"] =
      .error "ServiceError"
    ∧ AcquirePreprocess.collect_tile_results
        [.ok "tile1.tif", .error "ServiceError", .ok "tile3.tif"] =
      .error "ServiceError" :=
  ⟨rfl, rfl⟩

/-! ## Claim C8 -/

/-- C8: rebuilding the VRT mosaic is destructive — whatever file contents the
destination path held beforehand, after `build_3dep_vrt` the destination holds
exactly the artifact built from the current tile list, and the result at the
destination is independent of the prior filesystem state. -/
theorem C8_vrt_rebuild_destructive :
    ∀ (fs fs2 : FileSystem) (destVRT : String) (tile_files : List String),
      build_3dep_vrt fs destVRT tile_files destVRT = some (vrt_content tile_files)
      ∧ build_3dep_vrt fs destVRT tile_files destVRT =
          build_3dep_vrt fs2 destVRT tile_files destVRT := by
  intro fs fs2 d tiles
  constructor
  · simp [build_3dep_vrt]
  · simp [build_3dep_vrt]

/-! ## Claim C9 -/

/-- C9: the CRS guard of `Acquired_and_process_lidar_dems` raises
`ValueError('WBD and 3DEP DEM VRT must have the same CRS')` exactly when the
WBD CRS and the DEM-VRT CRS are exactly the same, and proceeds exactly when
they differ (the condition is inverted relative to its own error message). -/
theorem C9_crs_check_inverted : ∀ wbd_crs dem_vrt_crs : String,
    (crs_match_check wbd_crs dem_vrt_crs =
        Except.error "WBD and 3DEP DEM VRT must have the same CRS"
      ↔ wbd_crs = dem_vrt_crs)
    ∧ (crs_match_check wbd_crs dem_vrt_crs = Except.ok () ↔ wbd_crs ≠ dem_vrt_crs) := by
  intro a b
  by_cases h : a = b <;> simp [crs_match_check, h]

/-! ## Claim C3 -/

/-- C3, counterexample: with tile `"a"` already recorded as completed by a
previous run, the pipeline still submits a job for `"a"` — the submitted list
is the full tile-inputs table, not the ledger-filtered list the spec
describes, so the already-succeeded tile is re-fetched. -/
theorem C3_counterexample :
    submitted_tile_jobs ["a"]
        [⟨"a", "12345678", ⟨0, 0, 1, 1⟩⟩, ⟨"b", "12345678", ⟨0, 0, 1, 1⟩⟩] =
      [⟨"a", "12345678", ⟨0, 0, 1, 1⟩⟩, ⟨"b", "12345678", ⟨0, 0, 1, 1⟩⟩]
    ∧ ledger_submitted_tile_jobs ["a"]
        [⟨"a", "12345678", ⟨0, 0, 1, 1⟩⟩, ⟨"b", "12345678", ⟨0, 0, 1, 1⟩⟩] =
      [⟨"b", "12345678", ⟨0, 0, 1, 1⟩⟩]
    ∧ submitted_tile_jobs ["a"]
        [⟨"a", "12345678", ⟨0, 0, 1, 1⟩⟩, ⟨"b", "12345678", ⟨0, 0, 1, 1⟩⟩] ≠
      ledger_submitted_tile_jobs ["a"]
        [⟨"a", "12345678", ⟨0, 0, 1, 1⟩⟩, ⟨"b", "12345678", ⟨0, 0, 1, 1⟩⟩] := by
  refine ⟨rfl, by simp [ledger_submitted_tile_jobs], ?_⟩
  simp [submitted_tile_jobs, ledger_submitted_tile_jobs]

/-- C3, amended: the pipeline maintains no completion ledger — a run submits
one acquisition job per row of the tile-inputs table unconditionally, so a
second run over the same tile set re-submits (re-fetches) every tile,
including those that already succeeded. -/
theorem C3_no_ledger_resubmits_all :
    ∀ (prior_completed : List String) (tile_inputs : List TileRow),
      submitted_tile_jobs prior_completed tile_inputs = tile_inputs := by
  intro prior tiles
  simp [submitted_tile_jobs]

/-! ## Claim C5 -/

/-- Length of the candidate-cell product list. -/
theorem listProd_length (xs ys : List ℚ) :
    (listProd xs ys).length = xs.length * ys.length := by
  induction xs with
  | nil => simp [listProd]
  | cons x xs ih =>
    simp only [listProd, List.flatMap_cons, List.length_append, List.length_map,
      List.length_cons] at *
    rw [ih]
    ring

/-- `np.linspace(lo, hi, n + 1)` has `n + 1` entries. -/
theorem linspace_length (lo hi : ℚ) (n : ℕ) :
    (linspace lo hi n).length = n + 1 := by
  unfold linspace
  rw [List.length_map, List.length_range]

/-- Tile counts of the 10,000 × 10,000 / `max_tile_size = 4,000` scenario. -/
theorem num_x_tiles_scenario : num_x_tiles ⟨0, 0, 10000, 10000⟩ 4000 = 3 := by
  unfold num_x_tiles
  have h : (⌈((10000 : ℚ) - 0) / 4000⌉) = 3 := by
    rw [Int.ceil_eq_iff]; norm_num
  rw [h]
  rfl

/-- Tile counts of the 10,000 × 10,000 / `max_tile_size = 4,000` scenario. -/
theorem num_y_tiles_scenario : num_y_tiles ⟨0, 0, 10000, 10000⟩ 4000 = 3 := by
  unfold num_y_tiles
  have h : (⌈((10000 : ℚ) - 0) / 4000⌉) = 3 := by
    rw [Int.ceil_eq_iff]; norm_num
  rw [h]
  rfl

/-- C5, counterexample: for a 10,000 × 10,000 region with
`max_tile_size = 4,000` the loop builds a candidate cell at every one of the
`(3+1) × (3+1) = 16` grid-border points — not the claimed 9 — because
`product(tile_borders_x, tile_borders_y)` includes the maximal border of each
axis as a cell origin. -/
theorem C5_counterexample :
    (tile_borders ⟨0, 0, 10000, 10000⟩ 4000).length = 16 ∧ (16 : ℕ) ≠ 9 := by
  constructor
  · unfold tile_borders
    rw [listProd_length, linspace_length, linspace_length,
      num_x_tiles_scenario, num_y_tiles_scenario]
  · decide

/-- C5, amended: grid generation yields `nx + 1` and `ny + 1` grid lines and
one candidate cell per border point — `(nx + 1) * (ny + 1)` candidate cells
before intersection filtering; in the 10,000 × 10,000 /
`max_tile_size = 4,000` scenario `nx = ny = 3`, giving 16 candidate cells
(only 9 of which are genuine fishnet cells). -/
theorem C5_candidate_count :
    (∀ (g : Box) (s : ℚ),
      (tile_borders g s).length = (num_x_tiles g s + 1) * (num_y_tiles g s + 1))
    ∧ num_x_tiles ⟨0, 0, 10000, 10000⟩ 4000 = 3
    ∧ num_y_tiles ⟨0, 0, 10000, 10000⟩ 4000 = 3
    ∧ (tile_borders ⟨0, 0, 10000, 10000⟩ 4000).length = 16 := by
  have hlen : ∀ (g : Box) (s : ℚ),
      (tile_borders g s).length = (num_x_tiles g s + 1) * (num_y_tiles g s + 1) := by
    intro g s
    unfold tile_borders
    rw [listProd_length, linspace_length, linspace_length]
  refine ⟨hlen, num_x_tiles_scenario, num_y_tiles_scenario, ?_⟩
  rw [hlen, num_x_tiles_scenario, num_y_tiles_scenario]

/-! ## Claim C10 -/

/-- The loop only executes `return response` when the status code is 200. -/
theorem retry_loop_returned_eq (fetch : ℕ → FetchResult) :
    ∀ (l : List ℕ) (li lr : Option ℕ) (c : ℕ),
      retry_loop fetch l li lr = .returned c → c = 200 := by
  intro l
  induction l with
  | nil =>
    intro li lr c h
    simp [retry_loop] at h
  | cons i rest ih =>
    intro li lr c h
    simp only [retry_loop] at h
    cases hf : fetch i with
    | resp code =>
      rw [hf] at h
      by_cases hc : code = 200
      · subst hc
        simp at h
        exact h.symm
      · simp only [ne_eq, hc, not_false_iff, if_true] at h
        exact ih _ _ _ h
    | connError =>
      rw [hf] at h
      exact ih _ _ _ h

/-- If the `for` loop runs to completion, the loop variable `i` holds the last
index of the range. -/
theorem retry_loop_fellThrough_last (fetch : ℕ → FetchResult) (j : ℕ) :
    ∀ (l : List ℕ) (li lr li2 lr2 : Option ℕ),
      retry_loop fetch (l ++ [j]) li lr = .fellThrough li2 lr2 → li2 = some j := by
  intro l
  induction l with
  | nil =>
    intro li lr li2 lr2 h
    simp only [List.nil_append, retry_loop] at h
    cases hf : fetch j with
    | resp code =>
      rw [hf] at h
      by_cases hc : code = 200
      · subst hc
        simp [retry_loop] at h
      · simp only [ne_eq, hc, not_false_iff, if_true, retry_loop] at h
        exact (LoopExit.fellThrough.injEq _ _ _ _).mp h |>.1.symm
    | connError =>
      rw [hf] at h
      simp only [retry_loop] at h
      exact (LoopExit.fellThrough.injEq _ _ _ _).mp h |>.1.symm
  | cons i rest ih =>
    intro li lr li2 lr2 h
    simp only [List.cons_append, retry_loop] at h
    cases hf : fetch i with
    | resp code =>
      rw [hf] at h
      by_cases hc : code = 200
      · subst hc
        simp at h
      · simp only [ne_eq, hc, not_false_iff, if_true] at h
        exact ih _ _ _ _ h
    | connError =>
      rw [hf] at h
      exact ih _ _ _ _ h

/-- C10: for any attempt outcomes and any positive `max_retries`,
`retry_request` either returns a status-200 response or raises the
retries-exhausted `ConnectionError`; in particular it never returns a non-200
response (nor Python's implicit `None`), and the post-loop branch that raises
the status-code-specific error is unreachable because `i == max_retries - 1`
always holds after a completed loop. -/
theorem C10_retry_request_outcome :
    ∀ (fetch : ℕ → FetchResult) (max_retries : ℕ), 0 < max_retries →
      retry_request fetch max_retries = .ok (some 200)
      ∨ retry_request fetch max_retries = .error .retriesExhausted := by
  intro fetch n hn
  obtain ⟨m, rfl⟩ : ∃ m, n = m + 1 := ⟨n - 1, by omega⟩
  unfold retry_request
  cases h : retry_loop fetch (List.range (m + 1)) none none with
  | returned c =>
    have hc := retry_loop_returned_eq fetch _ _ _ _ h
    subst hc
    left
    rfl
  | fellThrough li lr =>
    rw [List.range_succ] at h
    have hli := retry_loop_fellThrough_last fetch m _ _ _ _ _ h
    subst hli
    right
    simp

/-- C10, witness: with every attempt hitting a `ConnectionError` and the
default `max_retries = 5`, the function raises the retries-exhausted error. -/
theorem C10_retry_request_outcome_witness :
    0 < 5
    ∧ (retry_request (fun _ => FetchResult.connError) 5 = .ok (some 200)
       ∨ retry_request (fun _ => FetchResult.connError) 5 =
          .error .retriesExhausted) :=
  ⟨by decide, C10_retry_request_outcome (fun _ => FetchResult.connError) 5 (by decide)⟩

/-! ## One-dimensional lemmas about the edge-aware buffering -/

/-- The buffered cell never starts above the cell's own base corner. -/
theorem buffer_side_bot_le (lo hi tsize buf x0 : ℚ) (hb : 0 ≤ buf) :
    (buffer_side lo hi tsize buf x0).1 ≤ x0 := by
  simp only [buffer_side]
  split_ifs <;> dsimp only <;> linarith

/-- The buffered cell never ends below the cell's own top corner. -/
theorem buffer_side_top_ge (lo hi tsize buf x0 : ℚ) (hb : 0 ≤ buf) :
    x0 + tsize ≤ (buffer_side lo hi tsize buf x0).2 := by
  simp only [buffer_side]
  split_ifs <;> dsimp only <;> linarith

/-- A cell that is not on the maximal boundary gets its top extended by the
buffer (this happens in both the minimal-edge and the interior branch). -/
theorem buffer_side_top_eq (lo hi tsize buf x0 : ℚ) (h : x0 + tsize ≠ hi) :
    (buffer_side lo hi tsize buf x0).2 = x0 + tsize + buf := by
  simp only [buffer_side]
  rw [if_neg h]
  split_ifs <;> rfl

/-- A cell that is not on the minimal boundary gets its bottom extended by the
buffer (this happens in both the maximal-edge and the interior branch). -/
theorem buffer_side_bot_eq (lo hi tsize buf x0 : ℚ) (h : x0 ≠ lo) :
    (buffer_side lo hi tsize buf x0).1 = x0 - buf := by
  simp only [buffer_side]
  split_ifs with h1
  · rfl
  · rfl

/-! ## Grid-point lemmas -/

/-- Stepping to the next grid line adds one spacing. -/
theorem gridPt_succ (lo st : ℚ) (i : ℕ) :
    gridPt lo st (i + 1) = gridPt lo st i + st := by
  unfold gridPt
  push_cast
  ring

/-- Grid points are monotone in the index. -/
theorem gridPt_le (lo st : ℚ) (hst : 0 ≤ st) {i j : ℕ} (h : i ≤ j) :
    gridPt lo st i ≤ gridPt lo st j := by
  unfold gridPt
  have hc : (i : ℚ) ≤ (j : ℚ) := by exact_mod_cast h
  nlinarith [mul_le_mul_of_nonneg_right hc hst]

/-- Grid points are strictly monotone in the index. -/
theorem gridPt_lt (lo st : ℚ) (hst : 0 < st) {i j : ℕ} (h : i < j) :
    gridPt lo st i < gridPt lo st j := by
  unfold gridPt
  have hc : (i : ℚ) < (j : ℚ) := by exact_mod_cast h
  nlinarith [mul_lt_mul_of_pos_right hc hst]

/-- Every grid point lies at or above the lower bound. -/
theorem gridPt_ge_lo (lo st : ℚ) (hst : 0 ≤ st) (i : ℕ) :
    lo ≤ gridPt lo st i := by
  unfold gridPt
  have : (0 : ℚ) ≤ (i : ℚ) * st := mul_nonneg (Nat.cast_nonneg i) hst
  linarith

/-- For the linspace spacing, the `n`-th grid point is the upper bound. -/
theorem gridPt_last (lo hi : ℚ) (n : ℕ) (hn : n ≠ 0) :
    gridPt lo (tile_size lo hi n) n = hi := by
  unfold gridPt tile_size
  have hq : (n : ℚ) ≠ 0 := Nat.cast_ne_zero.mpr hn
  field_simp

/-- The `i`-th grid point is an entry of the linspace. -/
theorem gridPt_mem_linspace (lo hi : ℚ) (n i : ℕ) (h : i ≤ n) :
    gridPt lo (tile_size lo hi n) i ∈ linspace lo hi n := by
  rw [linspace, List.mem_map]
  exact ⟨i, List.mem_range.mpr (by omega), rfl⟩

/-- Membership in the candidate product list. -/
theorem mem_listProd {xs ys : List ℚ} {x y : ℚ} (hx : x ∈ xs) (hy : y ∈ ys) :
    (x, y) ∈ listProd xs ys := by
  rw [listProd, List.mem_flatMap]
  exact ⟨x, hx, List.mem_map.mpr ⟨y, hy, rfl⟩⟩

/-! ## Clipped buffered intervals -/

/-- The clipped buffered interval of a genuine cell (`i + 1 ≤ n`) contains
the cell's own base interval. -/
theorem clip_contains_cell (lo hi st buf : ℚ) (n i : ℕ)
    (hst : 0 < st) (hb : 0 ≤ buf) (hhi : hi = gridPt lo st n) (hin : i + 1 ≤ n) :
    max (buffer_side lo hi st buf (gridPt lo st i)).1 lo ≤ gridPt lo st i
    ∧ gridPt lo st (i + 1) ≤ min (buffer_side lo hi st buf (gridPt lo st i)).2 hi := by
  constructor
  · exact max_le (buffer_side_bot_le lo hi st buf _ hb) (gridPt_ge_lo lo st hst.le i)
  · apply le_min
    · rw [gridPt_succ]
      exact buffer_side_top_ge lo hi st buf _ hb
    · rw [hhi]
      exact gridPt_le lo st hst.le hin

/-- The x-extents of the clipped tiles of two horizontally adjacent genuine
cells intersect in an interval of width exactly `2 * buf`, provided the
buffer does not exceed the grid spacing. -/
theorem clip_overlap_eq (lo hi st buf : ℚ) (n i : ℕ)
    (hst : 0 < st) (hb : 0 < buf) (hbs : buf ≤ st) (hhi : hi = gridPt lo st n)
    (hin : i + 2 ≤ n) :
    min (min (buffer_side lo hi st buf (gridPt lo st i)).2 hi)
        (min (buffer_side lo hi st buf (gridPt lo st (i + 1))).2 hi)
      - max (max (buffer_side lo hi st buf (gridPt lo st i)).1 lo)
            (max (buffer_side lo hi st buf (gridPt lo st (i + 1))).1 lo)
      = 2 * buf := by
  have hsucc : gridPt lo st i + st = gridPt lo st (i + 1) := (gridPt_succ lo st i).symm
  have hsucc2 : gridPt lo st (i + 1) + st = gridPt lo st (i + 2) := by
    have h := gridPt_succ lo st (i + 1)
    have e : i + 1 + 1 = i + 2 := rfl
    rw [e] at h
    linarith
  have hne_top : gridPt lo st i + st ≠ hi := by
    rw [hsucc, hhi]
    exact ne_of_lt (gridPt_lt lo st hst (by omega))
  have htop_i : (buffer_side lo hi st buf (gridPt lo st i)).2 =
      gridPt lo st (i + 1) + buf := by
    rw [buffer_side_top_eq lo hi st buf _ hne_top, hsucc]
  have hne_bot : gridPt lo st (i + 1) ≠ lo := by
    have h0 : gridPt lo st 0 < gridPt lo st (i + 1) := gridPt_lt lo st hst (by omega)
    have he : gridPt lo st 0 = lo := by unfold gridPt; push_cast; ring
    rw [he] at h0
    exact ne_of_gt h0
  have hbot_i1 : (buffer_side lo hi st buf (gridPt lo st (i + 1))).1 =
      gridPt lo st (i + 1) - buf :=
    buffer_side_bot_eq lo hi st buf _ hne_bot
  have hup : gridPt lo st (i + 1) + buf ≤ hi := by
    rw [hhi]
    have h2 : gridPt lo st (i + 2) ≤ gridPt lo st n := gridPt_le lo st hst.le hin
    linarith
  have hdn : lo ≤ gridPt lo st (i + 1) - buf := by
    have h4 : gridPt lo st 1 ≤ gridPt lo st (i + 1) := gridPt_le lo st hst.le (by omega)
    have h5 : gridPt lo st 1 = lo + st := by unfold gridPt; push_cast; ring
    linarith
  have hcc_i := clip_contains_cell lo hi st buf n i hst hb.le hhi (by omega)
  have hcc_i1 := clip_contains_cell lo hi st buf n (i + 1) hst hb.le hhi (by omega)
  have hcc_i1' : gridPt lo st (i + 2) ≤
      min (buffer_side lo hi st buf (gridPt lo st (i + 1))).2 hi := by
    have h := hcc_i1.2
    have e : i + 1 + 1 = i + 2 := rfl
    rw [e] at h
    exact h
  have hmin : min (min (buffer_side lo hi st buf (gridPt lo st i)).2 hi)
      (min (buffer_side lo hi st buf (gridPt lo st (i + 1))).2 hi)
      = gridPt lo st (i + 1) + buf := by
    rw [htop_i]
    rw [min_eq_left hup]
    apply min_eq_left
    linarith [hcc_i1']
  have hmax : max (max (buffer_side lo hi st buf (gridPt lo st i)).1 lo)
      (max (buffer_side lo hi st buf (gridPt lo st (i + 1))).1 lo)
      = gridPt lo st (i + 1) - buf := by
    rw [hbot_i1]
    rw [max_eq_left hdn]
    apply max_eq_right
    linarith [hcc_i.1]
  rw [hmin, hmax]
  ring

/-! ## Lemmas about generated tiles -/

/-- The tile of a genuine cell passes the area validity filter. -/
theorem cell_tile_isArea (g : Box) (s buf : ℚ) (i j : ℕ)
    (hstx : 0 < tile_size g.xmin g.xmax (num_x_tiles g s))
    (hsty : 0 < tile_size g.ymin g.ymax (num_y_tiles g s))
    (hb : 0 ≤ buf)
    (hi1 : i + 1 ≤ num_x_tiles g s) (hj1 : j + 1 ≤ num_y_tiles g s) :
    (cell_tile g s buf i j).isArea = true := by
  have hhx : g.xmax = gridPt g.xmin (tile_size g.xmin g.xmax (num_x_tiles g s))
      (num_x_tiles g s) :=
    (gridPt_last g.xmin g.xmax (num_x_tiles g s) (by omega)).symm
  have hhy : g.ymax = gridPt g.ymin (tile_size g.ymin g.ymax (num_y_tiles g s))
      (num_y_tiles g s) :=
    (gridPt_last g.ymin g.ymax (num_y_tiles g s) (by omega)).symm
  have hx := clip_contains_cell g.xmin g.xmax
    (tile_size g.xmin g.xmax (num_x_tiles g s)) buf (num_x_tiles g s) i hstx hb hhx hi1
  have hy := clip_contains_cell g.ymin g.ymax
    (tile_size g.ymin g.ymax (num_y_tiles g s)) buf (num_y_tiles g s) j hsty hb hhy hj1
  have hxlt : gridPt g.xmin (tile_size g.xmin g.xmax (num_x_tiles g s)) i <
      gridPt g.xmin (tile_size g.xmin g.xmax (num_x_tiles g s)) (i + 1) :=
    gridPt_lt _ _ hstx (by omega)
  have hylt : gridPt g.ymin (tile_size g.ymin g.ymax (num_y_tiles g s)) j <
      gridPt g.ymin (tile_size g.ymin g.ymax (num_y_tiles g s)) (j + 1) :=
    gridPt_lt _ _ hsty (by omega)
  simp only [cell_tile, Box.inter, Box.isArea, Bool.and_eq_true, decide_eq_true_eq]
  constructor
  · linarith [hx.1, hx.2]
  · linarith [hy.1, hy.2]

/-- The tile of a genuine cell is yielded by the generator. -/
theorem cell_tile_mem (g : Box) (s buf : ℚ) (i j : ℕ)
    (hin : i ≤ num_x_tiles g s) (hjn : j ≤ num_y_tiles g s)
    (harea : (cell_tile g s buf i j).isArea = true) :
    cell_tile g s buf i j ∈ tile_geometry g s buf := by
  rw [tile_geometry, List.mem_filterMap]
  refine ⟨(gridPt g.xmin (tile_size g.xmin g.xmax (num_x_tiles g s)) i,
           gridPt g.ymin (tile_size g.ymin g.ymax (num_y_tiles g s)) j), ?_, ?_⟩
  · rw [tile_borders]
    exact mem_listProd (gridPt_mem_linspace _ _ _ _ hin) (gridPt_mem_linspace _ _ _ _ hjn)
  · show (if (cell_tile g s buf i j).isArea then some (cell_tile g s buf i j)
        else none) = some (cell_tile g s buf i j)
    rw [harea]
    exact if_pos rfl

/-- Every yielded tile, being an intersection with the region geometry, lies
inside the region's bounds on every side. -/
theorem tile_geometry_within_bounds (g : Box) (s buf : ℚ) :
    ∀ t ∈ tile_geometry g s buf,
      g.xmin ≤ t.xmin ∧ t.xmax ≤ g.xmax ∧ g.ymin ≤ t.ymin ∧ t.ymax ≤ g.ymax := by
  intro t ht
  rw [tile_geometry, List.mem_filterMap] at ht
  obtain ⟨p, _, hmk⟩ := ht
  simp only [make_tile] at hmk
  split at hmk
  · cases hmk
    exact ⟨le_max_right _ _, min_le_right _ _, le_max_right _ _, min_le_right _ _⟩
  · exact absurd hmk (by simp)

/-! ## Claim C6 -/

/-- C6: every geometry yielded by `tile_geometry` has strictly positive width
and height — it is non-empty and of area type; candidates whose intersection
with the region is empty or degenerate are filtered out and never yielded. -/
theorem C6_yielded_tiles_are_areas :
    ∀ (g : Box) (s buf : ℚ) (t : Box),
      t ∈ tile_geometry g s buf → t.xmin < t.xmax ∧ t.ymin < t.ymax := by
  intro g s buf t ht
  rw [tile_geometry, List.mem_filterMap] at ht
  obtain ⟨p, _, hmk⟩ := ht
  simp only [make_tile] at hmk
  split at hmk
  · rename_i harea
    cases hmk
    simpa [Box.isArea] using harea
  · exact absurd hmk (by simp)

/-- Tile count of the 10 × 10 region at `max_tile_size = 5`. -/
theorem num_x_tiles_ten : num_x_tiles ⟨0, 0, 10, 10⟩ 5 = 2 := by
  unfold num_x_tiles
  have h : (⌈((10 : ℚ) - 0) / 5⌉) = 2 := by rw [Int.ceil_eq_iff]; norm_num
  rw [h]
  rfl

/-- Tile count of the 10 × 10 region at `max_tile_size = 5`. -/
theorem num_y_tiles_ten : num_y_tiles ⟨0, 0, 10, 10⟩ 5 = 2 := by
  unfold num_y_tiles
  have h : (⌈((10 : ℚ) - 0) / 5⌉) = 2 := by rw [Int.ceil_eq_iff]; norm_num
  rw [h]
  rfl

/-- Concrete run of the generator: a 10 × 10 region, `max_tile_size = 5`,
buffer 1. -/
theorem tile_geometry_eval_ten :
    tile_geometry ⟨0, 0, 10, 10⟩ 5 1 =
      [⟨0, 0, 6, 6⟩, ⟨0, 4, 6, 10⟩, ⟨0, 9, 6, 10⟩, ⟨4, 0, 10, 6⟩, ⟨4, 4, 10, 10⟩,
       ⟨4, 9, 10, 10⟩, ⟨9, 0, 10, 6⟩, ⟨9, 4, 10, 10⟩, ⟨9, 9, 10, 10⟩] := by
  unfold tile_geometry tile_borders
  rw [num_x_tiles_ten, num_y_tiles_ten]
  norm_num [linspace, listProd, tile_size, make_tile, buffer_side, Box.inter, Box.isArea,
    List.range_succ, Box.mk.injEq, List.filterMap_cons]

/-- C6, witness: the generator's first tile for a concrete region is the box
`(0, 0, 6, 6)`, and the theorem applies to it. -/
theorem C6_yielded_tiles_are_areas_witness :
    (⟨0, 0, 6, 6⟩ : Box) ∈ tile_geometry ⟨0, 0, 10, 10⟩ 5 1
    ∧ ((⟨0, 0, 6, 6⟩ : Box).xmin < (⟨0, 0, 6, 6⟩ : Box).xmax
       ∧ (⟨0, 0, 6, 6⟩ : Box).ymin < (⟨0, 0, 6, 6⟩ : Box).ymax) :=
  ⟨by rw [tile_geometry_eval_ten]; exact List.mem_cons_self _ _,
   C6_yielded_tiles_are_areas ⟨0, 0, 10, 10⟩ 5 1 ⟨0, 0, 6, 6⟩
     (by rw [tile_geometry_eval_ten]; exact List.mem_cons_self _ _)⟩

/-! ## Claim C4 -/

/-- C4, amended: every tile yielded by the generator stays inside the
region's original bounds on all sides (it is an intersection with the
region), and, provided the edge buffer does not exceed the grid spacing,
the tiles of two cells adjacent across an internal x grid line are both
yielded and their x-extents overlap by exactly `2 * buf`.  (The proviso is
needed: the counterexample exhibits one positive buffer larger than the
spacing for which the overlap differs from `2 * buf`.) -/
theorem C4_bounds_and_overlap (g : Box) (s buf : ℚ) (i j : ℕ)
    (hbuf : 0 < buf)
    (hstx : 0 < tile_size g.xmin g.xmax (num_x_tiles g s))
    (hsty : 0 < tile_size g.ymin g.ymax (num_y_tiles g s))
    (hbx : buf ≤ tile_size g.xmin g.xmax (num_x_tiles g s))
    (hi2 : i + 2 ≤ num_x_tiles g s) (hj1 : j + 1 ≤ num_y_tiles g s) :
    (∀ t ∈ tile_geometry g s buf,
      g.xmin ≤ t.xmin ∧ t.xmax ≤ g.xmax ∧ g.ymin ≤ t.ymin ∧ t.ymax ≤ g.ymax)
    ∧ cell_tile g s buf i j ∈ tile_geometry g s buf
    ∧ cell_tile g s buf (i + 1) j ∈ tile_geometry g s buf
    ∧ overlap_x (cell_tile g s buf i j) (cell_tile g s buf (i + 1) j) = 2 * buf := by
  refine ⟨tile_geometry_within_bounds g s buf, ?_, ?_, ?_⟩
  · exact cell_tile_mem g s buf i j (by omega) (by omega)
      (cell_tile_isArea g s buf i j hstx hsty hbuf.le (by omega) hj1)
  · exact cell_tile_mem g s buf (i + 1) j (by omega) (by omega)
      (cell_tile_isArea g s buf (i + 1) j hstx hsty hbuf.le (by omega) hj1)
  · have hhx : g.xmax =
        gridPt g.xmin (tile_size g.xmin g.xmax (num_x_tiles g s)) (num_x_tiles g s) :=
      (gridPt_last g.xmin g.xmax (num_x_tiles g s) (by omega)).symm
    have h := clip_overlap_eq g.xmin g.xmax
      (tile_size g.xmin g.xmax (num_x_tiles g s)) buf (num_x_tiles g s) i
      hstx hbuf hbx hhx hi2
    simp only [overlap_x, cell_tile, Box.inter]
    exact h

/-- C4, counterexample: for the 10 × 10 region with `max_tile_size = 5` and
the (positive) edge buffer 10, the yielded tiles of the two cells adjacent
across the internal grid line `x = 5` overlap by 10 along x, not by
`2 × 10 = 20` — here the clipping at the region geometry caps the overlap,
so the claimed identity does not hold for every positive edge buffer. -/
theorem C4_counterexample :
    cell_tile ⟨0, 0, 10, 10⟩ 5 10 0 0 ∈ tile_geometry ⟨0, 0, 10, 10⟩ 5 10
    ∧ cell_tile ⟨0, 0, 10, 10⟩ 5 10 1 0 ∈ tile_geometry ⟨0, 0, 10, 10⟩ 5 10
    ∧ overlap_x (cell_tile ⟨0, 0, 10, 10⟩ 5 10 0 0) (cell_tile ⟨0, 0, 10, 10⟩ 5 10 1 0) = 10
    ∧ (10 : ℚ) ≠ 2 * 10 := by
  have hc0 : cell_tile ⟨0, 0, 10, 10⟩ 5 10 0 0 = ⟨0, 0, 10, 10⟩ := by
    unfold cell_tile
    rw [num_x_tiles_ten, num_y_tiles_ten]
    norm_num [tile_size, gridPt, buffer_side, Box.inter]
  have hc1 : cell_tile ⟨0, 0, 10, 10⟩ 5 10 1 0 = ⟨0, 0, 10, 10⟩ := by
    unfold cell_tile
    rw [num_x_tiles_ten, num_y_tiles_ten]
    norm_num [tile_size, gridPt, buffer_side, Box.inter]
  have hgeom : tile_geometry ⟨0, 0, 10, 10⟩ 5 10 =
      [⟨0, 0, 10, 10⟩, ⟨0, 0, 10, 10⟩, ⟨0, 0, 10, 10⟩, ⟨0, 0, 10, 10⟩, ⟨0, 0, 10, 10⟩,
       ⟨0, 0, 10, 10⟩, ⟨0, 0, 10, 10⟩, ⟨0, 0, 10, 10⟩, ⟨0, 0, 10, 10⟩] := by
    unfold tile_geometry tile_borders
    rw [num_x_tiles_ten, num_y_tiles_ten]
    norm_num [linspace, listProd, tile_size, make_tile, buffer_side, Box.inter, Box.isArea,
      List.range_succ, Box.mk.injEq, List.filterMap_cons]
  refine ⟨?_, ?_, ?_, by norm_num⟩
  · rw [hc0, hgeom]
    exact List.mem_cons_self _ _
  · rw [hc1, hgeom]
    exact List.mem_cons_self _ _
  · rw [hc0, hc1]
    norm_num [overlap_x]

/-- Tile count of the 15 × 10 region at `max_tile_size = 5`. -/
theorem num_x_tiles_fifteen : num_x_tiles ⟨0, 0, 15, 10⟩ 5 = 3 := by
  unfold num_x_tiles
  have h : (⌈((15 : ℚ) - 0) / 5⌉) = 3 := by rw [Int.ceil_eq_iff]; norm_num
  rw [h]
  rfl

/-- Tile count of the 15 × 10 region at `max_tile_size = 5`. -/
theorem num_y_tiles_fifteen : num_y_tiles ⟨0, 0, 15, 10⟩ 5 = 2 := by
  unfold num_y_tiles
  have h : (⌈((10 : ℚ) - 0) / 5⌉) = 2 := by rw [Int.ceil_eq_iff]; norm_num
  rw [h]
  rfl

/-- C4, witness: a 15 × 10 region, `max_tile_size = 5`, buffer 1, cells
`(0, 0)` and `(1, 0)` adjacent across the internal grid line `x = 5`. -/
theorem C4_bounds_and_overlap_witness :
    (0 : ℚ) < 1
    ∧ ((∀ t ∈ tile_geometry ⟨0, 0, 15, 10⟩ 5 1,
          (⟨0, 0, 15, 10⟩ : Box).xmin ≤ t.xmin ∧ t.xmax ≤ (⟨0, 0, 15, 10⟩ : Box).xmax
          ∧ (⟨0, 0, 15, 10⟩ : Box).ymin ≤ t.ymin ∧ t.ymax ≤ (⟨0, 0, 15, 10⟩ : Box).ymax)
       ∧ cell_tile ⟨0, 0, 15, 10⟩ 5 1 0 0 ∈ tile_geometry ⟨0, 0, 15, 10⟩ 5 1
       ∧ cell_tile ⟨0, 0, 15, 10⟩ 5 1 1 0 ∈ tile_geometry ⟨0, 0, 15, 10⟩ 5 1
       ∧ overlap_x (cell_tile ⟨0, 0, 15, 10⟩ 5 1 0 0) (cell_tile ⟨0, 0, 15, 10⟩ 5 1 1 0)
          = 2 * 1) :=
  ⟨by norm_num,
   C4_bounds_and_overlap ⟨0, 0, 15, 10⟩ 5 1 0 0 (by norm_num)
     (by rw [num_x_tiles_fifteen]; norm_num [tile_size])
     (by rw [num_y_tiles_fifteen]; norm_num [tile_size])
     (by rw [num_x_tiles_fifteen]; norm_num [tile_size])
     (by rw [num_x_tiles_fifteen]; omega)
     (by rw [num_y_tiles_fifteen]; omega)⟩

end InundationMapping
